import Mathlib

/-!
Shallow embedding of `src/infra/python/infra_deployer.py` (an AWS
provisioning script built on boto3) together with proofs about its
retry wrapper and resource managers.

Modelling conventions:
* Provider exceptions are the inductive `PyError`; `PyError.clientError`
  carries the provider error code string (botocore `ClientError` with
  `exc.response["Error"]["Code"]`), `PyError.valueError` models any
  exception that is not a `ClientError`.
* Fallible Python code is embedded as `Except PyError _`.
* The remote provider control plane is explicit state (`World`,
  `NatState`, route lists, ...) threaded through each manager function,
  with ghost fields recording the provider calls that a claim needs to
  observe (e.g. which subnets received a `modify_subnet_attribute` call).
* Fresh provider identifiers are generated from a `nextId` counter,
  mirroring the fact that the provider returns a new unique id per
  created resource.
-/

namespace InfraDeployer

/-- Exceptions crossing the provider boundary.  `clientError code` is a
botocore `ClientError` whose response carries the given provider error
code; `valueError` stands for any exception of a different type (which
the retry wrapper's `except ClientError` clause does not catch). -/
inductive PyError where
  | clientError (code : String)
  | valueError (msg : String)
  deriving DecidableEq

/-- The loop of `retryable`'s inner `wrapper`, starting at attempt number
`attempt` with `remaining` iterations of `range(1, attempts + 1)` still to
run.  The wrapped operation is `op`, a function from the (1-based) attempt
number to the outcome of that invocation; `delay` is `backoff_seconds`.

Returns the Python outcome (`Except.ok none` is the implicit `return None`
when the loop runs zero iterations, `Except.ok (some v)` a returned value,
`Except.error e` a raised exception), the number of invocations of `op`,
and the list of durations passed to `time.sleep` in order. -/
def retryLoop {α : Type} (op : Nat → Except PyError α) (delay : Nat) :
    Nat → Nat → Except PyError (Option α) × Nat × List Nat
  | _, 0 => (Except.ok none, 0, [])
  | attempt, remaining + 1 =>
    match op attempt with
    | Except.ok v => (Except.ok (some v), 1, [])
    | Except.error (PyError.clientError code) =>
      if remaining = 0 then
        (Except.error (PyError.clientError code), 1, [])
      else
        let rest := retryLoop op delay (attempt + 1) remaining
        (rest.1, rest.2.1 + 1, delay * attempt :: rest.2.2)
    | Except.error e => (Except.error e, 1, [])

/-- `retryable(func)` applied with `max_attempts` and `backoff_seconds`:
runs `for attempt in range(1, attempts + 1)`, returning `func`'s value on
success, re-raising a `ClientError` on the final attempt, sleeping
`delay * attempt` after every earlier `ClientError`, and letting any
non-`ClientError` exception escape at once.  `max_attempts` is an `Int`
because the Python caller may pass any integer; `range` runs
`max(max_attempts, 0)` iterations. -/
def retryable {α : Type} (op : Nat → Except PyError α) (max_attempts : Int)
    (backoff_seconds : Nat) : Except PyError (Option α) × Nat × List Nat :=
  retryLoop op backoff_seconds 1 max_attempts.toNat

/-- Behaviour of the retry loop on an operation that raises the same
`ClientError` at every attempt: every attempt is consumed, each non-final
attempt `a` sleeps `delay * a`, and the error is re-raised unchanged. -/
theorem retryLoop_const_clientError (c : String) (delay : Nat) :
    ∀ r a, retryLoop (fun _ => (Except.error (PyError.clientError c) :
        Except PyError Unit)) delay a (r + 1) =
      (Except.error (PyError.clientError c), r + 1,
        (List.range r).map (fun k => delay * (a + k))) := by
  intro r
  induction r with
  | zero => intro a; simp [retryLoop]
  | succ n ih =>
    intro a
    rw [retryLoop]
    simp only [Nat.succ_ne_zero, if_false, ih (a + 1)]
    refine Prod.ext rfl (Prod.ext (by simp) ?_)
    simp only [List.range_succ_eq_map, List.map_cons, List.map_map]
    refine List.cons_eq_cons.mpr ⟨by simp, ?_⟩
    apply List.map_congr_left
    intro k _
    simp only [Function.comp_apply]
    congr 1
    omega

/-- Sum of a mapped `List.range` as a `Finset` sum. -/
theorem list_range_map_sum (f : Nat → Nat) :
    ∀ m, ((List.range m).map f).sum = ∑ i in Finset.range m, f i := by
  intro m
  induction m with
  | zero => simp
  | succ n ih => rw [List.range_succ, List.map_append, List.sum_append,
      Finset.sum_range_succ, ih]; simp

/-- C5: for `max_attempts = N ≥ 1` and `backoff_seconds = B`, an operation
that raises a transient provider `ClientError` on every invocation is
invoked exactly `N` times, the wrapper sleeps `B * k` after the `k`-th
failed attempt for `k = 1, …, N - 1` (the sleep list), the total sleep is
`B * (0 + 1 + ⋯ + (N - 1))`, and the error raised at the end is the
operation's own error unchanged. -/
theorem retryable_transient_exhaustion (c : String) (N B : Nat) (h : 1 ≤ N) :
    retryable (fun _ => (Except.error (PyError.clientError c) :
        Except PyError Unit)) (N : Int) B =
      (Except.error (PyError.clientError c), N,
        (List.range (N - 1)).map (fun k => B * (k + 1))) ∧
    ((List.range (N - 1)).map (fun k => B * (k + 1))).sum =
      ∑ k in Finset.range N, B * k := by
  constructor
  · obtain ⟨n, rfl⟩ : ∃ n, N = n + 1 := ⟨N - 1, (Nat.succ_pred_eq_of_pos h).symm⟩
    have := retryLoop_const_clientError c B n 1
    simp only [retryable, Int.toNat_natCast]
    rw [this]
    refine Prod.ext rfl (Prod.ext rfl ?_)
    simp only [Nat.add_sub_cancel]
    apply List.map_congr_left
    intro k _
    ring
  · rw [list_range_map_sum]
    obtain ⟨n, rfl⟩ : ∃ n, N = n + 1 := ⟨N - 1, (Nat.succ_pred_eq_of_pos h).symm⟩
    rw [Finset.sum_range_succ' (fun k => B * k) n]
    simp

/-- Closed witness for `retryable_transient_exhaustion` at `N = 3`,
`B = 2`. -/
theorem retryable_transient_exhaustion_witness :
    retryable (fun _ => (Except.error (PyError.clientError "Throttling") :
        Except PyError Unit)) ((3 : Nat) : Int) 2 =
      (Except.error (PyError.clientError "Throttling"), 3, [2, 4]) := by
  have h := (retryable_transient_exhaustion "Throttling" 3 2 (by norm_num)).1
  rw [h]
  rfl

/-- C2 counterexample: a `ClientError` carrying the non-transient
malformed-request code `ValidationError` does NOT propagate on the first
attempt: with `max_attempts = 3` it consumes all 3 attempts and sleeps
twice, because the wrapper's `except ClientError` clause never inspects
the error code. -/
theorem retryable_code_blind_retry_cex :
    (retryable (fun _ => (Except.error (PyError.clientError "ValidationError") :
        Except PyError Unit)) ((3 : Nat) : Int) 2).2.1 = 3 ∧
    (retryable (fun _ => (Except.error (PyError.clientError "ValidationError") :
        Except PyError Unit)) ((3 : Nat) : Int) 2).2.2 = [2, 4] :=
  ⟨rfl, rfl⟩

/-- C2 (amended): the retry wrapper classifies by exception type alone,
not by provider error code: every `ClientError` — whatever its code,
including a malformed-request code — is retried until the attempt budget
is exhausted, while any non-`ClientError` exception propagates on the
first attempt with no further attempt and no sleep. -/
theorem retryable_classifies_by_exception_type {α : Type} (c msg : String)
    (N B : Nat) (h : 1 ≤ N) (op : Nat → Except PyError α)
    (hop : op 1 = Except.error (PyError.valueError msg)) :
    (retryable (fun _ => (Except.error (PyError.clientError c) :
        Except PyError Unit)) (N : Int) B).2.1 = N ∧
    retryable op (N : Int) B = (Except.error (PyError.valueError msg), 1, []) := by
  obtain ⟨n, rfl⟩ : ∃ n, N = n + 1 := ⟨N - 1, (Nat.succ_pred_eq_of_pos h).symm⟩
  constructor
  · simp only [retryable, Int.toNat_natCast]
    rw [retryLoop_const_clientError c B n 1]
  · simp only [retryable, Int.toNat_natCast]
    simp [retryLoop, hop]

/-- Closed witness for `retryable_classifies_by_exception_type`. -/
theorem retryable_classifies_by_exception_type_witness :
    (retryable (fun _ => (Except.error (PyError.clientError "ValidationError") :
        Except PyError Unit)) ((4 : Nat) : Int) 1).2.1 = 4 ∧
    retryable (fun _ => (Except.error (PyError.valueError "bad") :
        Except PyError Unit)) ((4 : Nat) : Int) 1 =
      (Except.error (PyError.valueError "bad"), 1, []) :=
  retryable_classifies_by_exception_type "ValidationError" "bad" 4 1 (by norm_num)
    (fun _ => Except.error (PyError.valueError "bad")) rfl

/-- C10: invoked with `max_attempts ≤ 0`, the wrapper's loop body never
runs and the wrapper returns Python `None` with zero invocations of the
wrapped operation; with `max_attempts ≥ 1` the operation is invoked at
least once, and a successful first invocation's result is returned
unchanged after exactly one invocation and no sleep. -/
theorem retryable_attempt_bounds {α : Type} (op : Nat → Except PyError α)
    (m : Int) (B : Nat) (v : α) :
    (m ≤ 0 → retryable op m B = (Except.ok none, 0, [])) ∧
    (1 ≤ m → op 1 = Except.ok v →
      retryable op m B = (Except.ok (some v), 1, [])) ∧
    (1 ≤ m → 1 ≤ (retryable op m B).2.1) := by
  refine ⟨?_, ?_, ?_⟩
  · intro h
    rw [retryable, Int.toNat_of_nonpos h]
    rfl
  · intro h hop
    have hm : m.toNat = (m.toNat - 1) + 1 := by omega
    rw [retryable, hm]
    simp [retryLoop, hop]
  · intro h
    have hm : m.toNat = (m.toNat - 1) + 1 := by omega
    rw [retryable, hm]
    cases hop : op 1 with
    | ok w => simp [retryLoop, hop]
    | error e =>
      cases e with
      | clientError c =>
        by_cases hr : m.toNat - 1 = 0 <;> simp [retryLoop, hop, hr]
      | valueError s => simp [retryLoop, hop]

/-- Closed witness for `retryable_attempt_bounds`. -/
theorem retryable_attempt_bounds_witness :
    retryable (fun _ => (Except.ok 7 : Except PyError Nat)) (-2 : Int) 3 =
      (Except.ok none, 0, []) ∧
    retryable (fun _ => (Except.ok 7 : Except PyError Nat)) (5 : Int) 3 =
      (Except.ok (some 7), 1, []) :=
  ⟨(retryable_attempt_bounds (fun _ => Except.ok 7) (-2) 3 7).1 (by norm_num),
   (retryable_attempt_bounds (fun _ => Except.ok 7) 5 3 7).2.1 (by norm_num) rfl⟩

/-- Outcome of `autoscaling.describe_auto_scaling_groups(AutoScalingGroupNames=[name])`
as observed by the `try`/`except ResourceInUseFault` in
`AutoScalingManager.ensure_auto_scaling_group`: either the call returns
normally or it raises `ResourceInUseFault` (the only exception the
`except` clause catches). -/
inductive DescribeASGOutcome where
  | ok
  | resourceInUseFault
  deriving DecidableEq

/-- Which provider call `ensure_auto_scaling_group` ends up issuing. -/
inductive ASGCall where
  | create
  | update
  deriving DecidableEq

/-- `AutoScalingManager.ensure_auto_scaling_group`: probes with a
describe call; the code sets `exists = True` when describe returns
normally and `exists = False` when describe raises `ResourceInUseFault`,
then issues `update_auto_scaling_group` when `exists` else
`create_auto_scaling_group` (both with the same desired/min/max/template
parameter set). -/
def ensure_auto_scaling_group (describe : DescribeASGOutcome) : ASGCall :=
  let found : Bool :=
    match describe with
    | DescribeASGOutcome.ok => true
    | DescribeASGOutcome.resourceInUseFault => false
  if found then ASGCall.update else ASGCall.create

/-- C1: evaluation of the code at the claim's scenario.  When the
describe probe raises the "in use" fault the code issues the CREATE
call, and when the probe raises no fault it issues the UPDATE call —
the exact inverse of the claimed (and spec-intended) branch. -/
theorem ensure_asg_inuse_branch_inverted :
    ensure_auto_scaling_group DescribeASGOutcome.resourceInUseFault =
      ASGCall.create ∧
    ensure_auto_scaling_group DescribeASGOutcome.ok = ASGCall.update := by
  constructor <;> rfl

/-- A route in the provider's route-table state, keyed by
(route table id, destination CIDR) — the pair `create_route` reports a
`RouteAlreadyExists` conflict on. -/
abbrev RouteKey := String × String

/-- `ec2.create_route`: fails with the `RouteAlreadyExists` client error
code when a route for the same (table, destination) is already present,
otherwise records the new route. -/
def create_route (routes : List RouteKey) (route_table_id destination_cidr : String) :
    Except PyError (List RouteKey) :=
  if (route_table_id, destination_cidr) ∈ routes then
    Except.error (PyError.clientError "RouteAlreadyExists")
  else
    Except.ok (routes ++ [(route_table_id, destination_cidr)])

/-- The `try`/`except ClientError` clause of `RouteTableManager.ensure_route`
applied to the outcome of the `create_route` call: a `ClientError` whose
code is `RouteAlreadyExists` is swallowed (the function returns normally,
provider state `routes` unchanged); any other error re-raises. -/
def ensure_route_handler (routes : List RouteKey) :
    Except PyError (List RouteKey) → Except PyError (List RouteKey)
  | Except.ok routes2 => Except.ok routes2
  | Except.error (PyError.clientError code) =>
    if code = "RouteAlreadyExists" then Except.ok routes
    else Except.error (PyError.clientError code)
  | Except.error e => Except.error e

/-- `RouteTableManager.ensure_route` against the route-table provider
state: attempt `create_route`, swallowing only `RouteAlreadyExists`. -/
def ensure_route (routes : List RouteKey) (route_table_id destination_cidr : String) :
    Except PyError (List RouteKey) :=
  ensure_route_handler routes (create_route routes route_table_id destination_cidr)

/-- C6: a `RouteAlreadyExists` error from the create-route call is
swallowed and `ensure_route` returns successfully; an error with any
other code re-raises; and calling `ensure_route` twice with the same
destination CIDR succeeds both times — in particular the second call
does not raise. -/
theorem ensure_route_swallows_only_conflict (routes : List RouteKey)
    (route_table_id destination_cidr code : String)
    (hc : code ≠ "RouteAlreadyExists") :
    ensure_route_handler routes
        (Except.error (PyError.clientError "RouteAlreadyExists")) =
      Except.ok routes ∧
    ensure_route_handler routes (Except.error (PyError.clientError code)) =
      Except.error (PyError.clientError code) ∧
    ∃ routes2, ensure_route routes route_table_id destination_cidr =
        Except.ok routes2 ∧
      ensure_route routes2 route_table_id destination_cidr = Except.ok routes2 := by
  refine ⟨by simp [ensure_route_handler], by simp [ensure_route_handler, hc], ?_⟩
  by_cases hmem : (route_table_id, destination_cidr) ∈ routes
  · exact ⟨routes, by simp [ensure_route, create_route, ensure_route_handler, hmem],
      by simp [ensure_route, create_route, ensure_route_handler, hmem]⟩
  · refine ⟨routes ++ [(route_table_id, destination_cidr)],
      by simp [ensure_route, create_route, ensure_route_handler, hmem], ?_⟩
    have hmem2 : (route_table_id, destination_cidr) ∈
        routes ++ [(route_table_id, destination_cidr)] := by simp
    simp [ensure_route, create_route, ensure_route_handler, hmem2]

/-- Closed witness for `ensure_route_swallows_only_conflict`. -/
theorem ensure_route_swallows_only_conflict_witness :
    ensure_route_handler ([] : List RouteKey)
        (Except.error (PyError.clientError "RouteAlreadyExists")) =
      Except.ok [] ∧
    ensure_route_handler ([] : List RouteKey)
        (Except.error (PyError.clientError "InvalidParameterValue")) =
      Except.error (PyError.clientError "InvalidParameterValue") ∧
    ∃ routes2, ensure_route [] "rtb-1" "0.0.0.0/0" = Except.ok routes2 ∧
      ensure_route routes2 "rtb-1" "0.0.0.0/0" = Except.ok routes2 :=
  ensure_route_swallows_only_conflict [] "rtb-1" "0.0.0.0/0"
    "InvalidParameterValue" (by decide)

/-- Modelled from the spec: the helper `_normalize_rules` is referenced by
`SecurityGroupManager._authorize_if_missing` but nowhere defined in the
repository's sources.  The spec only requires that the full requested
rule set for a direction is translated into the permissions passed to the
authorize call, so it is modelled as the total translation of the
requested rule list (rules themselves stay opaque strings). -/
def normalize_rules (rules : List String) : List String :=
  rules

/-- Existing rules on a security group, per direction, as returned by
`describe_security_group_rules` filtered by group id and `is-egress`. -/
structure SGRuleState where
  existingIngress : List String
  existingEgress : List String
  deriving DecidableEq

/-- The authorize calls `configure_rules` issues: each entry is the
permission list passed to one `authorize_security_group_ingress`
(resp. `..._egress`) call. -/
structure SGAuthCalls where
  ingressCalls : List (List String)
  egressCalls : List (List String)
  deriving DecidableEq

/-- `SecurityGroupManager._authorize_if_missing` for one direction:
returns early (no authorize call) when the describe reports ANY existing
rule of that direction, otherwise issues one authorize call with the
normalization of the whole requested rule list. -/
def authorize_if_missing (existing rules : List String) : List (List String) :=
  if existing.isEmpty then [normalize_rules rules] else []

/-- `SecurityGroupManager.configure_rules`: invokes the per-direction
helper only when the requested list for that direction is non-empty
(Python truthiness of the list). -/
def configure_rules (st : SGRuleState) (ingress_rules egress_rules : List String) :
    SGAuthCalls :=
  { ingressCalls :=
      if ingress_rules.isEmpty then []
      else authorize_if_missing st.existingIngress ingress_rules,
    egressCalls :=
      if egress_rules.isEmpty then []
      else authorize_if_missing st.existingEgress egress_rules }

/-- C7: for each direction, if at least one rule of that direction
already exists on the group, `configure_rules` issues no authorize call
for that direction no matter how large the requested set is; if no rule
of that direction exists and the requested list is non-empty, it issues
exactly one authorize call carrying the full (normalized) requested
set. -/
theorem configure_rules_coarse_idempotence (st : SGRuleState)
    (ingress_rules egress_rules : List String) :
    (st.existingIngress ≠ [] →
      (configure_rules st ingress_rules egress_rules).ingressCalls = []) ∧
    (st.existingEgress ≠ [] →
      (configure_rules st ingress_rules egress_rules).egressCalls = []) ∧
    (st.existingIngress = [] → ingress_rules ≠ [] →
      (configure_rules st ingress_rules egress_rules).ingressCalls =
        [normalize_rules ingress_rules]) ∧
    (st.existingEgress = [] → egress_rules ≠ [] →
      (configure_rules st ingress_rules egress_rules).egressCalls =
        [normalize_rules egress_rules]) := by
  refine ⟨fun h => ?_, fun h => ?_, fun h h2 => ?_, fun h h2 => ?_⟩ <;>
    simp [configure_rules, authorize_if_missing, List.isEmpty_iff, h] <;>
    intro hcontra <;> exact absurd hcontra h2

/-- Closed witness for `configure_rules_coarse_idempotence`: a group with
one existing ingress rule and no egress rule, asked for two ingress and
one egress rule. -/
theorem configure_rules_coarse_idempotence_witness :
    (configure_rules ⟨["old-ingress"], []⟩ ["r1", "r2"] ["e1"]).ingressCalls = [] ∧
    (configure_rules ⟨["old-ingress"], []⟩ ["r1", "r2"] ["e1"]).egressCalls =
      [normalize_rules ["e1"]] :=
  ⟨(configure_rules_coarse_idempotence ⟨["old-ingress"], []⟩ ["r1", "r2"] ["e1"]).1
      (by decide),
   (configure_rules_coarse_idempotence ⟨["old-ingress"], []⟩ ["r1", "r2"] ["e1"]).2.2.2
      rfl (by decide)⟩

/-- A NAT gateway recorded in the provider state. -/
structure NatGateway where
  natId : String
  subnetId : String
  allocationId : String
  deriving DecidableEq

/-- Provider state touched by `NATGatewayManager.ensure_nat_gateway`,
plus a ghost log of the gateway ids handed to the
`nat_gateway_available` waiter. -/
structure NatState where
  addresses : List String
  natGateways : List NatGateway
  waitedOn : List String
  nextId : Nat
  deriving DecidableEq

/-- `NATGatewayManager.ensure_nat_gateway`: with no pre-existence lookup
of any kind, allocate a fresh elastic IP, create a fresh NAT gateway in
the given subnet with that allocation, then block on the
`nat_gateway_available` waiter for the new gateway id; the id is returned
only after the waiter reports success, and a waiter exception
propagates.  `wait` models the waiter's outcome per gateway id. -/
def ensure_nat_gateway (wait : String → Except PyError Unit) (st : NatState)
    (subnet_id : String) : Except PyError (String × NatState) :=
  let allocId := "eipalloc-" ++ toString st.nextId
  let natId := "nat-" ++ toString st.nextId
  let st2 : NatState :=
    { addresses := st.addresses ++ [allocId],
      natGateways := st.natGateways ++ [⟨natId, subnet_id, allocId⟩],
      waitedOn := st.waitedOn ++ [natId],
      nextId := st.nextId + 1 }
  match wait natId with
  | Except.ok _ => Except.ok (natId, st2)
  | Except.error e => Except.error e

/-- Unfolding lemma for `ensure_nat_gateway` when the waiter reports the
new gateway available. -/
theorem ensure_nat_gateway_ok (wait : String → Except PyError Unit) (st : NatState)
    (subnet_id : String)
    (hw : wait ("nat-" ++ toString st.nextId) = Except.ok ()) :
    ensure_nat_gateway wait st subnet_id =
      Except.ok ("nat-" ++ toString st.nextId,
        { addresses := st.addresses ++ ["eipalloc-" ++ toString st.nextId],
          natGateways := st.natGateways ++
            [⟨"nat-" ++ toString st.nextId, subnet_id,
              "eipalloc-" ++ toString st.nextId⟩],
          waitedOn := st.waitedOn ++ ["nat-" ++ toString st.nextId],
          nextId := st.nextId + 1 }) := by
  simp [ensure_nat_gateway, hw]

/-- C8: every call allocates one new address and creates one new NAT
gateway unconditionally — even in a state that already holds a gateway
for the same subnet — so two calls for the same subnet yield two
gateways and two addresses; the new gateway id is returned only after it
was handed to the availability waiter, and a waiter failure makes the
call raise instead of returning. -/
theorem ensure_nat_gateway_unconditional (wait : String → Except PyError Unit)
    (st : NatState) (subnet_id : String) (e : PyError) :
    ((∀ u, wait u = Except.ok ()) →
      ∃ natId st2, ensure_nat_gateway wait st subnet_id = Except.ok (natId, st2) ∧
        st2.addresses.length = st.addresses.length + 1 ∧
        (st2.natGateways.filter (fun g => g.subnetId == subnet_id)).length =
          (st.natGateways.filter (fun g => g.subnetId == subnet_id)).length + 1 ∧
        natId ∈ st2.waitedOn) ∧
    ((∀ u, wait u = Except.ok ()) →
      ∃ natId1 st1 natId2 st2,
        ensure_nat_gateway wait st subnet_id = Except.ok (natId1, st1) ∧
        ensure_nat_gateway wait st1 subnet_id = Except.ok (natId2, st2) ∧
        st2.addresses.length = st.addresses.length + 2 ∧
        (st2.natGateways.filter (fun g => g.subnetId == subnet_id)).length =
          (st.natGateways.filter (fun g => g.subnetId == subnet_id)).length + 2) ∧
    ((∀ u, wait u = Except.error e) →
      ensure_nat_gateway wait st subnet_id = Except.error e) := by
  refine ⟨fun hw => ?_, fun hw => ?_, fun hw => ?_⟩
  · refine ⟨_, _, ensure_nat_gateway_ok wait st subnet_id (hw _), ?_, ?_, ?_⟩
    · simp
    · simp [List.filter_append]
    · simp
  · refine ⟨_, _, _, _, ensure_nat_gateway_ok wait st subnet_id (hw _),
      ensure_nat_gateway_ok wait _ subnet_id (hw _), ?_, ?_⟩
    · simp
    · simp [List.filter_append]
  · simp [ensure_nat_gateway, hw]

/-- Closed witness for `ensure_nat_gateway_unconditional`: both the
always-available waiter parts and the raising-waiter part at concrete
inputs. -/
theorem ensure_nat_gateway_unconditional_witness :
    (∃ natId1 st1 natId2 st2,
      ensure_nat_gateway (fun _ => Except.ok ()) ⟨[], [], [], 0⟩ "subnet-9" =
        Except.ok (natId1, st1) ∧
      ensure_nat_gateway (fun _ => Except.ok ()) st1 "subnet-9" =
        Except.ok (natId2, st2) ∧
      st2.addresses.length = ([] : List String).length + 2 ∧
      (st2.natGateways.filter (fun g => g.subnetId == "subnet-9")).length =
        (([] : List NatGateway).filter (fun g => g.subnetId == "subnet-9")).length + 2) ∧
    ensure_nat_gateway
        (fun _ => Except.error (PyError.clientError "WaiterError"))
        ⟨[], [], [], 0⟩ "subnet-9" =
      Except.error (PyError.clientError "WaiterError") :=
  ⟨(ensure_nat_gateway_unconditional (fun _ => Except.ok ()) ⟨[], [], [], 0⟩
      "subnet-9" (PyError.clientError "WaiterError")).2.1 (fun _ => rfl),
   (ensure_nat_gateway_unconditional
      (fun _ => Except.error (PyError.clientError "WaiterError")) ⟨[], [], [], 0⟩
      "subnet-9" (PyError.clientError "WaiterError")).2.2 (fun _ => rfl)⟩

/-- Outcome of `s3.head_bucket(Bucket=bucket)` as seen by the
`try`/`except ClientError` in `S3Manager.ensure_bucket`: either the head
succeeds or it raises a `ClientError` with the given code. -/
inductive HeadBucketResult where
  | ok
  | clientErr (code : String)
  deriving DecidableEq

/-- A `create_bucket` call, recording the bucket name and the
`LocationConstraint` of the `CreateBucketConfiguration` parameter
(`none` when that parameter is omitted). -/
structure CreateBucketCall where
  bucket : String
  locationConstraint : Option String
  deriving DecidableEq

/-- `S3Manager.ensure_bucket`: a successful head means the bucket exists
and nothing is created; a `ClientError` whose code is `404` or
`NoSuchBucket` triggers one `create_bucket` call, with
`CreateBucketConfiguration = {LocationConstraint: region}` added exactly
when `region != "us-east-1"`; any other code re-raises.  The returned
list holds the create calls issued. -/
def ensure_bucket (head : HeadBucketResult) (bucket region : String) :
    Except PyError (List CreateBucketCall) :=
  match head with
  | HeadBucketResult.ok => Except.ok []
  | HeadBucketResult.clientErr code =>
    if code = "404" ∨ code = "NoSuchBucket" then
      Except.ok [{ bucket := bucket,
                   locationConstraint :=
                     if region ≠ "us-east-1" then some region else none }]
    else
      Except.error (PyError.clientError code)

/-- C9: when the head probe fails with a `404`/`NoSuchBucket` classified
code, `ensure_bucket` issues exactly one create call, whose location
constraint is omitted precisely when the region is the provider default
`us-east-1` and is the given region otherwise; a probe error with any
other code propagates unmodified with no create call issued. -/
theorem ensure_bucket_region_constraint (bucket region code code2 : String)
    (h404 : code = "404" ∨ code = "NoSuchBucket")
    (hother : code2 ≠ "404" ∧ code2 ≠ "NoSuchBucket") :
    ensure_bucket (HeadBucketResult.clientErr code) bucket region =
      Except.ok [{ bucket := bucket,
                   locationConstraint :=
                     if region = "us-east-1" then none else some region }] ∧
    ((ensure_bucket (HeadBucketResult.clientErr code) bucket region =
        Except.ok [{ bucket := bucket, locationConstraint := none }]) ↔
      region = "us-east-1") ∧
    ensure_bucket (HeadBucketResult.clientErr code2) bucket region =
      Except.error (PyError.clientError code2) := by
  have hcreate : ensure_bucket (HeadBucketResult.clientErr code) bucket region =
      Except.ok [{ bucket := bucket,
                   locationConstraint :=
                     if region = "us-east-1" then none else some region }] := by
    by_cases hreg : region = "us-east-1" <;>
      simp [ensure_bucket, h404, hreg]
  refine ⟨hcreate, ?_, by simp [ensure_bucket, hother.1, hother.2]⟩
  rw [hcreate]
  by_cases hreg : region = "us-east-1" <;> simp [hreg]

/-- Closed witness for `ensure_bucket_region_constraint`, at the default
region and at a non-default region. -/
theorem ensure_bucket_region_constraint_witness :
    ensure_bucket (HeadBucketResult.clientErr "NoSuchBucket") "b" "us-east-1" =
      Except.ok [{ bucket := "b", locationConstraint := none }] ∧
    ensure_bucket (HeadBucketResult.clientErr "404") "b" "eu-west-1" =
      Except.ok [{ bucket := "b", locationConstraint := some "eu-west-1" }] ∧
    ensure_bucket (HeadBucketResult.clientErr "403") "b" "eu-west-1" =
      Except.error (PyError.clientError "403") := by
  have h1 := (ensure_bucket_region_constraint "b" "us-east-1" "NoSuchBucket" "403"
    (Or.inr rfl) (by decide)).1
  have h2 := ensure_bucket_region_constraint "b" "eu-west-1" "404" "403"
    (Or.inl rfl) (by decide)
  refine ⟨?_, ?_, h2.2.2⟩
  · rw [h1]
    simp
  · rw [h2.1]
    simp

/-- A subnet in the provider state: provider id, Name tag, owning VPC,
CIDR block and availability zone. -/
structure Subnet where
  subnetId : String
  nameTag : String
  vpcId : String
  cidrBlock : String
  az : String
  deriving DecidableEq

/-- A VPC in the provider state: provider id, Name tag, CIDR block (the
CIDR is write-only: lookups are by Name tag alone, so a CIDR mismatch is
never reconciled — first writer wins). -/
structure Vpc where
  vpcId : String
  nameTag : String
  cidrBlock : String
  deriving DecidableEq

/-- The provider control-plane state seen by the driver `main` and the
network managers, with ghost fields logging the calls the claims need to
observe.  `mapPublicIpCalls` records each subnet id passed to a
`modify_subnet_attribute(..., MapPublicIpOnLaunch={"Value": True})`
call; `igwCallVpcIds` / `subnetCallVpcIds` record the `vpc_id` argument
of every `ensure_internet_gateway` / `ensure_subnet` invocation.  The
resource families `main` never touches (security groups, launch
templates, auto scaling groups, database instances, route tables, NAT
gateways) are carried so that an end-to-end run shows they stay
empty. -/
structure World where
  vpcs : List Vpc
  dnsSupportEnabled : List String
  dnsHostnamesEnabled : List String
  igws : List (String × String)
  subnets : List Subnet
  mapPublicIpCalls : List String
  azNames : List String
  buckets : List String
  versioned : List String
  securityGroups : List String
  launchTemplates : List String
  autoScalingGroups : List String
  dbInstances : List String
  routeTables : List String
  natGatewayIds : List String
  igwCallVpcIds : List String
  subnetCallVpcIds : List String
  nextId : Nat
  deriving DecidableEq

/-- `VPCManager.ensure_vpc`: look up VPCs by Name tag; reuse the first
match, else create one with a fresh id and enable DNS support and DNS
hostnames on it. -/
def ensure_vpc (w : World) (name cidr : String) : String × World :=
  match w.vpcs.find? (fun v => v.nameTag == name) with
  | some v => (v.vpcId, w)
  | none =>
    let vpcId := "vpc-" ++ toString w.nextId
    (vpcId,
      { w with
          vpcs := w.vpcs ++ [⟨vpcId, name, cidr⟩],
          dnsSupportEnabled := w.dnsSupportEnabled ++ [vpcId],
          dnsHostnamesEnabled := w.dnsHostnamesEnabled ++ [vpcId],
          nextId := w.nextId + 1 })

/-- `VPCManager.ensure_internet_gateway`: look up gateways attached to
the given VPC; reuse the first, else create a fresh one and attach it. -/
def ensure_internet_gateway (w : World) (vpc_id : String) : String × World :=
  let w0 := { w with igwCallVpcIds := w.igwCallVpcIds ++ [vpc_id] }
  match w0.igws.find? (fun p => p.2 == vpc_id) with
  | some p => (p.1, w0)
  | none =>
    let igwId := "igw-" ++ toString w0.nextId
    (igwId,
      { w0 with igws := w0.igws ++ [(igwId, vpc_id)], nextId := w0.nextId + 1 })

/-- `VPCManager.ensure_subnet`: look up subnets by the (vpc-id,
cidr-block) filter pair; reuse the first match and return at once, else
create a fresh subnet and — only on this creation path — when `public`
issue the `modify_subnet_attribute` call enabling `MapPublicIpOnLaunch`. -/
def ensure_subnet (w : World) (name vpc_id cidr az : String) (public : Bool) :
    String × World :=
  let w0 := { w with subnetCallVpcIds := w.subnetCallVpcIds ++ [vpc_id] }
  match w0.subnets.find? (fun s => s.vpcId == vpc_id && s.cidrBlock == cidr) with
  | some s => (s.subnetId, w0)
  | none =>
    let subnetId := "subnet-" ++ toString w0.nextId
    let w1 := { w0 with
      subnets := w0.subnets ++ [⟨subnetId, name, vpc_id, cidr, az⟩],
      nextId := w0.nextId + 1 }
    if public then
      (subnetId, { w1 with mapPublicIpCalls := w1.mapPublicIpCalls ++ [subnetId] })
    else
      (subnetId, w1)

/-- C4 counterexample: a state already holding the subnet for
(`vpc-1`, `10.0.1.0/24`); the call with `is_public = true` returns the
existing id and issues NO `modify_subnet_attribute` call — the ghost log
stays empty — although the claim demands the call on every invocation. -/
theorem ensure_subnet_existing_skips_modify_cex :
    (ensure_subnet
        { vpcs := [], dnsSupportEnabled := [], dnsHostnamesEnabled := [],
          igws := [],
          subnets := [⟨"subnet-0", "public-a", "vpc-1", "10.0.1.0/24", "us-east-1a"⟩],
          mapPublicIpCalls := [], azNames := [], buckets := [], versioned := [],
          securityGroups := [], launchTemplates := [], autoScalingGroups := [],
          dbInstances := [], routeTables := [], natGatewayIds := [],
          igwCallVpcIds := [], subnetCallVpcIds := [], nextId := 1 }
        "public-a" "vpc-1" "10.0.1.0/24" "us-east-1a" true).1 = "subnet-0" ∧
    (ensure_subnet
        { vpcs := [], dnsSupportEnabled := [], dnsHostnamesEnabled := [],
          igws := [],
          subnets := [⟨"subnet-0", "public-a", "vpc-1", "10.0.1.0/24", "us-east-1a"⟩],
          mapPublicIpCalls := [], azNames := [], buckets := [], versioned := [],
          securityGroups := [], launchTemplates := [], autoScalingGroups := [],
          dbInstances := [], routeTables := [], natGatewayIds := [],
          igwCallVpcIds := [], subnetCallVpcIds := [], nextId := 1 }
        "public-a" "vpc-1" "10.0.1.0/24" "us-east-1a" true).2.mapPublicIpCalls = [] :=
  ⟨rfl, rfl⟩

/-- C4 (amended): `ensure_subnet` with `is_public = true` enables
`MapPublicIpOnLaunch` exactly when the subnet is created on this call:
when no subnet matches the (vpc_id, cidr) idempotence key the freshly
created subnet id is appended to the modify-call log, and when a match
exists the existing id is returned with the modify-call log unchanged. -/
theorem ensure_subnet_modify_only_on_create (w : World)
    (name vpc_id cidr az : String) :
    (w.subnets.find? (fun s => s.vpcId == vpc_id && s.cidrBlock == cidr) = none →
      (ensure_subnet w name vpc_id cidr az true).2.mapPublicIpCalls =
        w.mapPublicIpCalls ++ [(ensure_subnet w name vpc_id cidr az true).1]) ∧
    (∀ s, w.subnets.find? (fun s => s.vpcId == vpc_id && s.cidrBlock == cidr) =
        some s →
      (ensure_subnet w name vpc_id cidr az true).1 = s.subnetId ∧
      (ensure_subnet w name vpc_id cidr az true).2.mapPublicIpCalls =
        w.mapPublicIpCalls) := by
  constructor
  · intro hfind
    simp [ensure_subnet, hfind]
  · intro s hfind
    simp [ensure_subnet, hfind]

/-- Closed witness for `ensure_subnet_modify_only_on_create`: creation in
an empty state records the modify call on the new subnet. -/
theorem ensure_subnet_modify_only_on_create_witness :
    (ensure_subnet
        { vpcs := [], dnsSupportEnabled := [], dnsHostnamesEnabled := [],
          igws := [], subnets := [], mapPublicIpCalls := [], azNames := [],
          buckets := [], versioned := [], securityGroups := [],
          launchTemplates := [], autoScalingGroups := [], dbInstances := [],
          routeTables := [], natGatewayIds := [], igwCallVpcIds := [],
          subnetCallVpcIds := [], nextId := 0 }
        "public-a" "vpc-1" "10.0.1.0/24" "us-east-1a" true).2.mapPublicIpCalls =
      [] ++ [(ensure_subnet
        { vpcs := [], dnsSupportEnabled := [], dnsHostnamesEnabled := [],
          igws := [], subnets := [], mapPublicIpCalls := [], azNames := [],
          buckets := [], versioned := [], securityGroups := [],
          launchTemplates := [], autoScalingGroups := [], dbInstances := [],
          routeTables := [], natGatewayIds := [], igwCallVpcIds := [],
          subnetCallVpcIds := [], nextId := 0 }
        "public-a" "vpc-1" "10.0.1.0/24" "us-east-1a" true).1] :=
  (ensure_subnet_modify_only_on_create
    { vpcs := [], dnsSupportEnabled := [], dnsHostnamesEnabled := [],
      igws := [], subnets := [], mapPublicIpCalls := [], azNames := [],
      buckets := [], versioned := [], securityGroups := [],
      launchTemplates := [], autoScalingGroups := [], dbInstances := [],
      routeTables := [], natGatewayIds := [], igwCallVpcIds := [],
      subnetCallVpcIds := [], nextId := 0 }
    "public-a" "vpc-1" "10.0.1.0/24" "us-east-1a").1 rfl

/-- A fresh, empty provider state whose `describe_availability_zones`
reports the given zone names. -/
def freshWorld (azs : List String) : World :=
  { vpcs := [], dnsSupportEnabled := [], dnsHostnamesEnabled := [], igws := [],
    subnets := [], mapPublicIpCalls := [], azNames := azs, buckets := [],
    versioned := [], securityGroups := [], launchTemplates := [],
    autoScalingGroups := [], dbInstances := [], routeTables := [],
    natGatewayIds := [], igwCallVpcIds := [], subnetCallVpcIds := [],
    nextId := 0 }

/-- `s3.head_bucket` against the provider state: succeeds when the
bucket exists, else raises a `ClientError` with code `404`. -/
def head_bucket (w : World) (bucket : String) : HeadBucketResult :=
  if bucket ∈ w.buckets then HeadBucketResult.ok
  else HeadBucketResult.clientErr "404"

/-- `S3Manager.ensure_bucket` against the provider state: the head probe
feeds `ensure_bucket`, and any create calls it issues are applied to the
bucket list. -/
def ensure_bucket_w (w : World) (bucket region : String) : Except PyError World :=
  match ensure_bucket (head_bucket w bucket) bucket region with
  | Except.ok calls =>
    Except.ok { w with buckets := w.buckets ++ calls.map (fun c => c.bucket) }
  | Except.error e => Except.error e

/-- `S3Manager.enable_versioning`: an unconditional idempotent put. -/
def enable_versioning (w : World) (bucket : String) : World :=
  { w with versioned := w.versioned ++ [bucket] }

/-- The slice of the YAML configuration document that `main` reads. -/
structure Config where
  projectName : String
  region : String
  environment : String
  vpcCidr : String
  azCount : Nat
  publicCidrs : List String
  privateCidrs : List String
  rawBucket : String
  curatedBucket : String
  deriving DecidableEq

/-- The identifiers `main` collects into its console summary table. -/
structure Summary where
  vpcId : String
  igwId : String
  publicSubnets : List String
  privateSubnets : List String
  deriving DecidableEq

/-- One `for cidr, az in zip(cidr_blocks, az_names)` subnet loop of
`main`, accumulating the returned subnet ids in order; the subnet Name
is the synthetic `f"{tier}-{az}"`. -/
def ensureSubnetLoop (w : World) (vpc_id tier : String)
    (pairs : List (String × String)) (public : Bool) : List String × World :=
  pairs.foldl
    (fun acc pc =>
      let r := ensure_subnet acc.2 (tier ++ "-" ++ pc.2) vpc_id pc.1 pc.2 public
      (acc.1 ++ [r.1], r.2))
    ([], w)

/-- The driver `main`: ensure the VPC by `f"{project}-{env}"` Name, pass
the returned `vpc_id` to `ensure_internet_gateway` and to every
`ensure_subnet` call over the zipped (cidr, az) pairs (public subnets
first, then private), then ensure and version the raw and curated
buckets, and return the summary of provisioned identifiers.  `main`
invokes no other manager: it never calls the routing, NAT, security
group, IAM, launch template, auto scaling, secrets, or database
managers. -/
def main (cfg : Config) (w : World) : Except PyError (Summary × World) :=
  let vr := ensure_vpc w (cfg.projectName ++ "-" ++ cfg.environment) cfg.vpcCidr
  let gr := ensure_internet_gateway vr.2 vr.1
  let az_names := gr.2.azNames.take cfg.azCount
  let pr := ensureSubnetLoop gr.2 vr.1 "public" (cfg.publicCidrs.zip az_names) true
  let qr := ensureSubnetLoop pr.2 vr.1 "private" (cfg.privateCidrs.zip az_names) false
  match ensure_bucket_w qr.2 cfg.rawBucket cfg.region with
  | Except.error e => Except.error e
  | Except.ok w5 =>
    let w5v := enable_versioning w5 cfg.rawBucket
    match ensure_bucket_w w5v cfg.curatedBucket cfg.region with
    | Except.error e => Except.error e
    | Except.ok w6 =>
      Except.ok
        ({ vpcId := vr.1, igwId := gr.1,
           publicSubnets := pr.1, privateSubnets := qr.1 },
         enable_versioning w6 cfg.curatedBucket)

/-- The C3 scenario configuration: one VPC, 2 public + 2 private subnets
over two availability zones, and two distinct storage buckets. -/
def cfg0 : Config :=
  { projectName := "cloudarch", region := "us-east-1", environment := "dev",
    vpcCidr := "10.0.0.0/16", azCount := 2,
    publicCidrs := ["10.0.1.0/24", "10.0.2.0/24"],
    privateCidrs := ["10.0.3.0/24", "10.0.4.0/24"],
    rawBucket := "raw-bucket", curatedBucket := "curated-bucket" }

/-- C3 counterexample: the end-to-end run from a fresh empty provider
state completes successfully but produces NO identifier at all for the
security group, launch template, auto scaling group, or database
resource types declared by the claim — `main` never invokes those
managers. -/
theorem main_missing_resource_types_cex :
    (main cfg0 (freshWorld ["us-east-1a", "us-east-1b"])).map
        (fun r => (r.2.securityGroups.length, r.2.launchTemplates.length,
          r.2.autoScalingGroups.length, r.2.dbInstances.length)) =
      Except.ok (0, 0, 0, 0) := rfl

/-- C3 (amended): from a fresh empty provider state, `main` provisions
exactly one VPC, one internet gateway, two public and two private
subnets, and two buckets; the `vpc_id` returned by `ensure_vpc`
(`vpc-0`) is the one received by the `ensure_internet_gateway` call and
by all four `ensure_subnet` calls; and the resource families whose
managers `main` never invokes (security groups, launch templates, auto
scaling groups, databases, route tables, NAT gateways) stay empty. -/
theorem main_end_to_end :
    ∃ w : World,
      main cfg0 (freshWorld ["us-east-1a", "us-east-1b"]) =
        Except.ok ({ vpcId := "vpc-0", igwId := "igw-1",
                     publicSubnets := ["subnet-2", "subnet-3"],
                     privateSubnets := ["subnet-4", "subnet-5"] }, w) ∧
      w.vpcs.length = 1 ∧ w.igws.length = 1 ∧ w.subnets.length = 4 ∧
      w.buckets = ["raw-bucket", "curated-bucket"] ∧
      w.versioned = ["raw-bucket", "curated-bucket"] ∧
      w.igwCallVpcIds = ["vpc-0"] ∧
      w.subnetCallVpcIds = ["vpc-0", "vpc-0", "vpc-0", "vpc-0"] ∧
      w.mapPublicIpCalls = ["subnet-2", "subnet-3"] ∧
      w.securityGroups = [] ∧ w.launchTemplates = [] ∧
      w.autoScalingGroups = [] ∧ w.dbInstances = [] ∧
      w.routeTables = [] ∧ w.natGatewayIds = [] :=
  ⟨_, rfl, rfl, rfl, rfl, rfl, rfl, rfl, rfl, rfl, rfl, rfl, rfl, rfl, rfl, rfl⟩

end InfraDeployer
